import Mathlib

/-!
Shallow embedding of the geojson_tools coordinate-transform engine
(src/geojson_coordinate_localizer.py and src/geojson_euclidean_projection.py).

Numbers are modelled as rationals (exact arithmetic).  Python exceptions are
modelled by the error side of Except; in-place mutation of a feature list with
a possibly-escaping exception is modelled by returning the final state of the
list together with an optional error.
-/

namespace GeoJSONTools

/-- Python runtime errors that the localizer code can raise: IndexError from
indexing an empty or too-short list, TypeError from subscripting or
subtracting a non-list/non-number, and ValueError raised explicitly by the
projector. The spec groups the first two as MalformedGeometry and the last
as NoPolygonFeatures. -/
inductive PyErr : Type where
  | indexError : PyErr
  | typeError : PyErr
  | valueError : PyErr
  deriving DecidableEq

/-- A nested Python coordinate list: either a number or a list of nested
coordinate lists, exactly the values `localize_coordinates` can receive. -/
inductive CoordTree : Type where
  | num : ℚ → CoordTree
  | arr : List CoordTree → CoordTree

mutual

/-- Embedding of GeoJSONLocalizer.localize_coordinates (recursion on the
nested list; a leaf is recognized by its first element being numeric, and the
result leaf is rebuilt from only the first two elements). Subscripting a
number raises TypeError, indexing past the end raises IndexError, and
subtracting an offset from a list raises TypeError, as in Python. -/
def localize_coordinates (xo yo : ℚ) : CoordTree → Except PyErr CoordTree
  | .num _ => .error .typeError
  | .arr [] => .error .indexError
  | .arr (.num x :: rest) =>
    match rest with
    | [] => .error .indexError
    | .num y :: _ => .ok (.arr [.num (x - xo), .num (y - yo)])
    | .arr _ :: _ => .error .typeError
  | .arr (.arr l :: rest) =>
    match localizeList xo yo (.arr l :: rest) with
    | .ok ts => .ok (.arr ts)
    | .error e => .error e

/-- The list comprehension inside localize_coordinates: left-to-right
traversal, first raised error escapes. -/
def localizeList (xo yo : ℚ) : List CoordTree → Except PyErr (List CoordTree)
  | [] => .ok []
  | t :: ts =>
    match localize_coordinates xo yo t with
    | .error e => .error e
    | .ok t' =>
      match localizeList xo yo ts with
      | .error e => .error e
      | .ok ts' => .ok (t' :: ts')

end

mutual

/-- Embedding of GeoJSONLocalizer.restore_localized_coordinates: the same
recursion as localize_coordinates, adding the offset instead of
subtracting it. -/
def restore_localized_coordinates (xo yo : ℚ) : CoordTree → Except PyErr CoordTree
  | .num _ => .error .typeError
  | .arr [] => .error .indexError
  | .arr (.num x :: rest) =>
    match rest with
    | [] => .error .indexError
    | .num y :: _ => .ok (.arr [.num (x + xo), .num (y + yo)])
    | .arr _ :: _ => .error .typeError
  | .arr (.arr l :: rest) =>
    match restoreList xo yo (.arr l :: rest) with
    | .ok ts => .ok (.arr ts)
    | .error e => .error e

/-- The list comprehension inside restore_localized_coordinates. -/
def restoreList (xo yo : ℚ) : List CoordTree → Except PyErr (List CoordTree)
  | [] => .ok []
  | t :: ts =>
    match restore_localized_coordinates xo yo t with
    | .error e => .error e
    | .ok t' =>
      match restoreList xo yo ts with
      | .error e => .error e
      | .ok ts' => .ok (t' :: ts')

end

mutual

/-- Well-formed coordinate array in the sense of the spec data model: every
leaf is exactly a 2-element numeric pair, arrays are non-empty, and numeric
and non-numeric siblings are never mixed at one nesting level. -/
def wf : CoordTree → Bool
  | .num _ => false
  | .arr [] => false
  | .arr (.num _ :: rest) =>
    match rest with
    | [.num _] => true
    | _ => false
  | .arr (.arr l :: rest) => wfList (.arr l :: rest)

/-- All members of the list are well-formed coordinate arrays. -/
def wfList : List CoordTree → Bool
  | [] => true
  | t :: ts => wf t && wfList ts

end

mutual

/-- The shape of a nested coordinate array: every number replaced by 0, so
two trees have equal shape exactly when they have the same nesting depth and
the same element count at every nesting level. -/
def shapeOf : CoordTree → CoordTree
  | .num _ => .num 0
  | .arr l => .arr (shapeOfList l)

/-- Pointwise shapes of a list of nested coordinate arrays. -/
def shapeOfList : List CoordTree → List CoordTree
  | [] => []
  | t :: ts => shapeOf t :: shapeOfList ts

end

/-- A GeoJSON geometry object: its "type" string and its nested
"coordinates" value. -/
structure Geometry : Type where
  type : String
  coordinates : CoordTree

/-- A GeoJSON feature: a geometry plus an opaque properties value (the
transforms never look inside properties, so its type is a parameter). -/
structure Feature (P : Type) : Type where
  geometry : Geometry
  properties : P

/-- Embedding of GeoJSONLocalizer.anonymize_polygons. The Python code
mutates each feature's coordinates in place inside a loop and lets any
exception escape, so the embedding returns the final state of the feature
list together with the escaped error (if any): features processed before the
error keep their localized coordinates, the failing feature and all later
ones are unchanged. -/
def anonymize_polygons (P : Type) (xo yo : ℚ) :
    List (Feature P) → List (Feature P) × Option PyErr
  | [] => ([], none)
  | f :: fs =>
    match localize_coordinates xo yo f.geometry.coordinates with
    | .error e => (f :: fs, some e)
    | .ok c2 =>
      let r := anonymize_polygons P xo yo fs
      (⟨⟨f.geometry.type, c2⟩, f.properties⟩ :: r.1, r.2)

/-- Embedding of GeoJSONLocalizer.restore_polygons, with the same in-place
mutation model as anonymize_polygons. -/
def restore_polygons (P : Type) (xo yo : ℚ) :
    List (Feature P) → List (Feature P) × Option PyErr
  | [] => ([], none)
  | f :: fs =>
    match restore_localized_coordinates xo yo f.geometry.coordinates with
    | .error e => (f :: fs, some e)
    | .ok c2 =>
      let r := restore_polygons P xo yo fs
      (⟨⟨f.geometry.type, c2⟩, f.properties⟩ :: r.1, r.2)

/-- Python list indexing at position 0: TypeError on a number, IndexError on
an empty list. -/
def pyIndex0 : CoordTree → Except PyErr CoordTree
  | .num _ => .error .typeError
  | .arr [] => .error .indexError
  | .arr (t :: _) => .ok t

/-- Embedding of GeoJSONLocalizer._calculate_offset_coords: scans the
features in collection order; for the first Polygon returns
coordinates[0][0], for the first MultiPolygon returns coordinates[0][0][0],
skipping every other geometry type; Python's final return None is modelled
as .ok none. -/
def calculate_offset_coords (P : Type) : List (Feature P) → Except PyErr (Option CoordTree)
  | [] => .ok none
  | f :: fs =>
    if f.geometry.type = "Polygon" then
      match pyIndex0 f.geometry.coordinates with
      | .error e => .error e
      | .ok r0 =>
        match pyIndex0 r0 with
        | .error e => .error e
        | .ok v => .ok (some v)
    else if f.geometry.type = "MultiPolygon" then
      match pyIndex0 f.geometry.coordinates with
      | .error e => .error e
      | .ok p0 =>
        match pyIndex0 p0 with
        | .error e => .error e
        | .ok r0 =>
          match pyIndex0 r0 with
          | .error e => .error e
          | .ok v => .ok (some v)
    else calculate_offset_coords P fs

/-- Python int() applied to a rational: truncation toward zero. -/
def pyInt (q : ℚ) : ℤ := if q < 0 then ⌈q⌉ else ⌊q⌋

/-- The zone number that _get_transformation_to_UTM interpolates into the
UTM CRS string: int((average_longitude + 180) / 6) + 1, where
average_longitude is the mean of the given centroid longitudes. No clamping
and no range validation appear in the code. -/
def zoneNumber (lons : List ℚ) : ℤ :=
  pyInt ((lons.sum / (lons.length : ℚ) + 180) / 6) + 1

/-- Modelled from the spec (for comparison with zoneNumber): zone =
floor((avgLongitude + 180) / 6) + 1, clamped to the valid range [1, 60]. -/
def specSelectZone (lons : List ℚ) : ℤ :=
  max 1 (min 60 (⌊(lons.sum / (lons.length : ℚ) + 180) / 6⌋ + 1))

/-- Embedding of GeoJSONProjector._get_source_polygons: the features whose
geometry type string equals "Polygon". -/
def getSourcePolygons (P : Type) (fs : List (Feature P)) : List (Feature P) :=
  fs.filter (fun f => f.geometry.type = "Polygon")

/-- The zone number computed by _get_transformation_to_UTM on a feature
collection; the per-polygon centroid longitude comes from external shapely
code and is abstracted as the function cent. -/
def selectedZone (P : Type) (cent : Geometry → ℚ) (fs : List (Feature P)) : ℤ :=
  zoneNumber ((getSourcePolygons P fs).map (fun f => cent f.geometry))

/-- A point of the planar (projected) frame. -/
abbrev Point : Type := ℚ × ℚ

/-- A shapely polygon as the projector handles it: an exterior ring and a
list of interior (hole) rings. -/
structure PlanarGeometry : Type where
  exterior : List Point
  interiors : List (List Point)

/-- An entry of the projector's intermediate lists: a shapely geometry
paired with the source feature's properties, as built by project_to_UTM. -/
structure PlanarFeature (P : Type) : Type where
  geometry : PlanarGeometry
  properties : P

/-- Apply a coordinatewise point transform to every vertex of every ring,
as shapely.transform and shapely.affinity do. -/
def mapGeom (f : Point → Point) (g : PlanarGeometry) : PlanarGeometry :=
  ⟨g.exterior.map f, g.interiors.map (fun r => r.map f)⟩

/-- Modelled from the spec: shapely.affinity.translate as a pointwise
translation. -/
def translatePoint (dx dy : ℚ) (p : Point) : Point := (p.1 + dx, p.2 + dy)

/-- Modelled from the spec: shapely.affinity.rotate about the origin via the
standard 2D rotation matrix, counterclockwise for positive degrees; c and s
stand for the cosine and sine of the configured angle (external
trigonometry). -/
def rotatePoint (c s : ℚ) (p : Point) : Point :=
  (c * p.1 - s * p.2, s * p.1 + c * p.2)

/-- Modelled from the spec: shapely.affinity.scale about the origin with
equal x and y factors. -/
def scalePoint (k : ℚ) (p : Point) : Point := (k * p.1, k * p.2)

/-- Embedding of GeoJSONProjector._get_transformation_to_UTM: raises
ValueError when the filtered polygon list is empty, otherwise returns the
external pyproj transformer (abstracted as utmOfZone) for the computed zone
number. -/
def get_transformation_to_UTM (P : Type) (cent : Geometry → ℚ)
    (utmOfZone : ℤ → Point → Point) (fs : List (Feature P)) :
    Except PyErr (Point → Point) :=
  if (getSourcePolygons P fs).isEmpty then .error .valueError
  else .ok (utmOfZone (selectedZone P cent fs))

/-- Embedding of GeoJSONProjector.project_to_UTM: raises ValueError when the
filtered polygon list is empty, otherwise maps the UTM transformer over
every ring of every filtered polygon (shapely.geometry.shape is abstracted
as toShape), pairing each result with the source feature's properties. -/
def project_to_UTM (P : Type) (cent : Geometry → ℚ) (utmOfZone : ℤ → Point → Point)
    (toShape : Geometry → PlanarGeometry) (fs : List (Feature P)) :
    Except PyErr (List (PlanarFeature P)) :=
  if (getSourcePolygons P fs).isEmpty then .error .valueError
  else
    match get_transformation_to_UTM P cent utmOfZone fs with
    | .error e => .error e
    | .ok T =>
      .ok ((getSourcePolygons P fs).map
        (fun f => ⟨mapGeom T (toShape f.geometry), f.properties⟩))

/-- Embedding of GeoJSONProjector._get_centroid_coordinates: the arithmetic
mean of all exterior-ring vertices of the given polygons. -/
def get_centroid_coordinates (P : Type) (polys : List (PlanarFeature P)) : Point :=
  let allCoordinates := (polys.map (fun p => p.geometry.exterior)).flatten
  ((allCoordinates.map Prod.fst).sum / (allCoordinates.length : ℚ),
   (allCoordinates.map Prod.snd).sum / (allCoordinates.length : ℚ))

/-- Embedding of GeoJSONProjector.transform_to_localized_coordinate_system:
one pass over the polygons, translating by the negated global vertex mean,
then rotating only when rotate_deg is nonzero (Python truthiness of the
int), then scaling only when scale_factor is not 1.0. -/
def transform_to_localized_coordinate_system (P : Type) (rotateDeg : ℤ) (c s k : ℚ)
    (polys : List (PlanarFeature P)) : List (PlanarFeature P) :=
  let cen := get_centroid_coordinates P polys
  polys.map (fun poly =>
    let g1 := mapGeom (translatePoint (-cen.1) (-cen.2)) poly.geometry
    let g2 := if rotateDeg ≠ 0 then mapGeom (rotatePoint c s) g1 else g1
    let g3 := if k ≠ 1 then mapGeom (scalePoint k) g2 else g2
    ⟨g3, poly.properties⟩)

/-- Embedding of GeoJSONProjector.project: forward UTM projection, then the
localized-coordinate-system transform. -/
def project (P : Type) (cent : Geometry → ℚ) (utmOfZone : ℤ → Point → Point)
    (toShape : Geometry → PlanarGeometry) (rotateDeg : ℤ) (c s k : ℚ)
    (fs : List (Feature P)) : Except PyErr (List (PlanarFeature P)) :=
  match project_to_UTM P cent utmOfZone toShape fs with
  | .error e => .error e
  | .ok u => .ok (transform_to_localized_coordinate_system P rotateDeg c s k u)

/-- Modelled from the spec: the forward-transform stage of the pipeline,
applied to the whole filtered collection at once. -/
def specForwardStage (P : Type) (T : Point → Point) (polys : List (PlanarFeature P)) :
    List (PlanarFeature P) :=
  polys.map (fun p => ⟨mapGeom T p.geometry, p.properties⟩)

/-- Modelled from the spec: the recenter stage — translate every polygon by
the negated global vertex mean of the stage input. -/
def specRecenterStage (P : Type) (polys : List (PlanarFeature P)) :
    List (PlanarFeature P) :=
  let cen := get_centroid_coordinates P polys
  polys.map (fun p => ⟨mapGeom (translatePoint (-cen.1) (-cen.2)) p.geometry, p.properties⟩)

/-- Modelled from the spec: the rotate stage, applied only when the
configured angle is nonzero, about the origin. -/
def specRotateStage (P : Type) (rotateDeg : ℤ) (c s : ℚ)
    (polys : List (PlanarFeature P)) : List (PlanarFeature P) :=
  if rotateDeg ≠ 0 then
    polys.map (fun p => ⟨mapGeom (rotatePoint c s) p.geometry, p.properties⟩)
  else polys

/-- Modelled from the spec: the scale stage, applied only when the
configured factor is not 1.0, about the origin. -/
def specScaleStage (P : Type) (k : ℚ) (polys : List (PlanarFeature P)) :
    List (PlanarFeature P) :=
  if k ≠ 1 then
    polys.map (fun p => ⟨mapGeom (scalePoint k) p.geometry, p.properties⟩)
  else polys

/-- A concrete well-formed Polygon feature used by closed witnesses. -/
def goodPoly : Feature Unit :=
  ⟨⟨"Polygon", .arr [.arr [.arr [.num 1, .num 2], .arr [.num 3, .num 4],
    .arr [.num 5, .num 6], .arr [.num 1, .num 2]]]⟩, ()⟩

/-- A concrete Polygon feature whose single ring contains an empty (missing)
vertex, used by closed counterexamples. -/
def badPoly : Feature Unit :=
  ⟨⟨"Polygon", .arr [.arr [.arr [.num 7, .num 8], .arr []]]⟩, ()⟩

/-- Structural induction for CoordTree giving the hypothesis on every member
of a nested list. -/
theorem CoordTree.inductionOn (P : CoordTree → Prop)
    (hnum : ∀ q, P (CoordTree.num q))
    (harr : ∀ l, (∀ t ∈ l, P t) → P (CoordTree.arr l)) :
    ∀ t, P t
  | .num q => hnum q
  | .arr l => harr l (fun t _ => CoordTree.inductionOn P hnum harr t)
termination_by t => sizeOf t
decreasing_by
  have h1 : sizeOf t < sizeOf l := List.sizeOf_lt_of_mem (by assumption)
  simp only [CoordTree.arr.sizeOf_spec]
  omega

/-- A well-formed coordinate array is an array, never a bare number. -/
theorem wf_arr (t : CoordTree) (h : wf t = true) : ∃ l, t = CoordTree.arr l := by
  cases t with
  | num q => simp [wf] at h
  | arr l => exact ⟨l, rfl⟩

/-- List-level round trip: given the member-wise induction hypothesis,
localizing a list of well-formed arrays succeeds, preserves shapes and
well-formedness, and restoring undoes it exactly. -/
theorem localizeList_wf (xo yo : ℚ) (l : List CoordTree)
    (IH : ∀ t ∈ l, wf t = true →
      ∃ t2, localize_coordinates xo yo t = Except.ok t2 ∧ wf t2 = true ∧
        shapeOf t2 = shapeOf t ∧ restore_localized_coordinates xo yo t2 = Except.ok t)
    (hwf : wfList l = true) :
    ∃ l2, localizeList xo yo l = Except.ok l2 ∧ wfList l2 = true ∧
      shapeOfList l2 = shapeOfList l ∧ restoreList xo yo l2 = Except.ok l := by
  induction l with
  | nil => exact ⟨[], by simp [localizeList], by simp [wfList], rfl, by simp [restoreList]⟩
  | cons t ts ih =>
    rw [wfList] at hwf
    simp only [Bool.and_eq_true] at hwf
    obtain ⟨t2, h1, h2, h3, h4⟩ := IH t (by simp) hwf.1
    obtain ⟨l2, g1, g2, g3, g4⟩ := ih (fun u hu h => IH u (by simp [hu]) h) hwf.2
    refine ⟨t2 :: l2, ?_, ?_, ?_, ?_⟩
    · simp [localizeList, h1, g1]
    · simp [wfList, h2, g2]
    · simp only [shapeOfList]
      rw [h3, g3]
    · simp [restoreList, h4, g4]

/-- Tree-level round trip on well-formed coordinate arrays: localization
succeeds, preserves well-formedness and shape, and restoring with the same
offset returns exactly the original tree (exact rational arithmetic). -/
theorem localize_wf (xo yo : ℚ) : ∀ t, wf t = true →
    ∃ t2, localize_coordinates xo yo t = Except.ok t2 ∧ wf t2 = true ∧
      shapeOf t2 = shapeOf t ∧ restore_localized_coordinates xo yo t2 = Except.ok t := by
  intro t
  induction t using CoordTree.inductionOn with
  | hnum q => intro h; simp [wf] at h
  | harr l IH =>
    intro hwf
    cases l with
    | nil => simp [wf] at hwf
    | cons c rest =>
      cases c with
      | num x =>
        cases rest with
        | nil => simp [wf] at hwf
        | cons d rest2 =>
          cases rest2 with
          | nil =>
            cases d with
            | num y =>
              refine ⟨.arr [.num (x - xo), .num (y - yo)], ?_, ?_, ?_, ?_⟩
              · simp [localize_coordinates]
              · simp [wf]
              · simp [shapeOf, shapeOfList]
              · simp [restore_localized_coordinates, sub_add_cancel]
            | arr m => simp [wf] at hwf
          | cons e rest3 => simp [wf] at hwf
      | arr m =>
        have hl : wfList (CoordTree.arr m :: rest) = true := by
          rw [wf] at hwf; exact hwf
        obtain ⟨l2, g1, g2, g3, g4⟩ :=
          localizeList_wf xo yo (CoordTree.arr m :: rest) (fun t ht h => IH t ht h) hl
        cases l2 with
        | nil => simp [shapeOfList] at g3
        | cons c2 l2t =>
          cases c2 with
          | num z =>
            rw [wfList] at g2
            simp [wf] at g2
          | arr m2 =>
            refine ⟨.arr (.arr m2 :: l2t), ?_, ?_, ?_, ?_⟩
            · simp [localize_coordinates, g1]
            · rw [wf]; exact g2
            · simp only [shapeOf]
              rw [g3]
            · simp [restore_localized_coordinates, g4]

/-- List-level mirror of localizeList_wf with the roles of localize and
restore exchanged. -/
theorem restoreList_wf (xo yo : ℚ) (l : List CoordTree)
    (IH : ∀ t ∈ l, wf t = true →
      ∃ t2, restore_localized_coordinates xo yo t = Except.ok t2 ∧ wf t2 = true ∧
        shapeOf t2 = shapeOf t ∧ localize_coordinates xo yo t2 = Except.ok t)
    (hwf : wfList l = true) :
    ∃ l2, restoreList xo yo l = Except.ok l2 ∧ wfList l2 = true ∧
      shapeOfList l2 = shapeOfList l ∧ localizeList xo yo l2 = Except.ok l := by
  induction l with
  | nil => exact ⟨[], by simp [restoreList], by simp [wfList], rfl, by simp [localizeList]⟩
  | cons t ts ih =>
    rw [wfList] at hwf
    simp only [Bool.and_eq_true] at hwf
    obtain ⟨t2, h1, h2, h3, h4⟩ := IH t (by simp) hwf.1
    obtain ⟨l2, g1, g2, g3, g4⟩ := ih (fun u hu h => IH u (by simp [hu]) h) hwf.2
    refine ⟨t2 :: l2, ?_, ?_, ?_, ?_⟩
    · simp [restoreList, h1, g1]
    · simp [wfList, h2, g2]
    · simp only [shapeOfList]
      rw [h3, g3]
    · simp [localizeList, h4, g4]

/-- Tree-level mirror of localize_wf: restoring a well-formed coordinate
array succeeds, preserves well-formedness and shape, and localizing with the
same offset returns exactly the original tree. -/
theorem restore_wf (xo yo : ℚ) : ∀ t, wf t = true →
    ∃ t2, restore_localized_coordinates xo yo t = Except.ok t2 ∧ wf t2 = true ∧
      shapeOf t2 = shapeOf t ∧ localize_coordinates xo yo t2 = Except.ok t := by
  intro t
  induction t using CoordTree.inductionOn with
  | hnum q => intro h; simp [wf] at h
  | harr l IH =>
    intro hwf
    cases l with
    | nil => simp [wf] at hwf
    | cons c rest =>
      cases c with
      | num x =>
        cases rest with
        | nil => simp [wf] at hwf
        | cons d rest2 =>
          cases rest2 with
          | nil =>
            cases d with
            | num y =>
              refine ⟨.arr [.num (x + xo), .num (y + yo)], ?_, ?_, ?_, ?_⟩
              · simp [restore_localized_coordinates]
              · simp [wf]
              · simp [shapeOf, shapeOfList]
              · simp [localize_coordinates, add_sub_cancel_right]
            | arr m => simp [wf] at hwf
          | cons e rest3 => simp [wf] at hwf
      | arr m =>
        have hl : wfList (CoordTree.arr m :: rest) = true := by
          rw [wf] at hwf; exact hwf
        obtain ⟨l2, g1, g2, g3, g4⟩ :=
          restoreList_wf xo yo (CoordTree.arr m :: rest) (fun t ht h => IH t ht h) hl
        cases l2 with
        | nil => simp [shapeOfList] at g3
        | cons c2 l2t =>
          cases c2 with
          | num z =>
            rw [wfList] at g2
            simp [wf] at g2
          | arr m2 =>
            refine ⟨.arr (.arr m2 :: l2t), ?_, ?_, ?_, ?_⟩
            · simp [restore_localized_coordinates, g1]
            · rw [wf]; exact g2
            · simp only [shapeOf]
              rw [g3]
            · simp [localize_coordinates, g4]

/-- C1: for every FeatureCollection containing only Polygon/MultiPolygon
features (well-formed coordinate arrays) and every offset vector (xo, yo),
applying restore_polygons to the result of anonymize_polygons with the same
offset reproduces every original coordinate; the embedding computes in exact
rational arithmetic, so the round trip is exact. -/
theorem C1_localize_restore_roundtrip (P : Type) (xo yo : ℚ) (fs : List (Feature P))
    (h : ∀ f ∈ fs, (f.geometry.type = "Polygon" ∨ f.geometry.type = "MultiPolygon") ∧
      wf f.geometry.coordinates = true) :
    ∃ fs2, anonymize_polygons P xo yo fs = (fs2, none) ∧
      restore_polygons P xo yo fs2 = (fs, none) := by
  induction fs with
  | nil => exact ⟨[], by simp [anonymize_polygons], by simp [restore_polygons]⟩
  | cons f fs ih =>
    obtain ⟨⟨ty, co⟩, pr⟩ := f
    obtain ⟨-, hwf⟩ := h ⟨⟨ty, co⟩, pr⟩ (by simp)
    obtain ⟨t2, h1, -, -, h4⟩ := localize_wf xo yo co hwf
    obtain ⟨fs2, g1, g2⟩ := ih (fun u hu => h u (by simp [hu]))
    refine ⟨⟨⟨ty, t2⟩, pr⟩ :: fs2, ?_, ?_⟩
    · simp [anonymize_polygons, h1, g1]
    · simp [restore_polygons, h4, g2]

/-- C1 witness: the round trip on a concrete one-polygon collection with
offset (100, 200). -/
theorem C1_witness :
    ∃ fs2, anonymize_polygons Unit 100 200 [goodPoly] = (fs2, none) ∧
      restore_polygons Unit 100 200 fs2 = ([goodPoly], none) :=
  C1_localize_restore_roundtrip Unit 100 200 [goodPoly] (by
    intro f hf
    simp only [List.mem_singleton] at hf
    subst hf
    exact ⟨Or.inl rfl, by simp [goodPoly, wf, wfList]⟩)

/-- C7: for every well-formed CoordinateArray and every offset, both
localize_coordinates and restore_localized_coordinates succeed and return a
CoordinateArray with the same nesting depth and the same element count at
every nesting level (equal shape). -/
theorem C7_shape_preserved (xo yo : ℚ) (t : CoordTree) (h : wf t = true) :
    (∃ t2, localize_coordinates xo yo t = Except.ok t2 ∧ shapeOf t2 = shapeOf t) ∧
    (∃ t2, restore_localized_coordinates xo yo t = Except.ok t2 ∧
      shapeOf t2 = shapeOf t) := by
  obtain ⟨a, h1, -, h3, -⟩ := localize_wf xo yo t h
  obtain ⟨b, g1, -, g3, -⟩ := restore_wf xo yo t h
  exact ⟨⟨a, h1, h3⟩, ⟨b, g1, g3⟩⟩

/-- C7 witness: shape preservation on a concrete MultiPolygon-depth array
with offset (1, 2). -/
theorem C7_witness :
    (∃ t2, localize_coordinates 1 2
        (CoordTree.arr [.arr [.arr [.arr [.num 3, .num 4], .arr [.num 5, .num 6]]]]) =
        Except.ok t2 ∧
      shapeOf t2 = shapeOf
        (CoordTree.arr [.arr [.arr [.arr [.num 3, .num 4], .arr [.num 5, .num 6]]]])) ∧
    (∃ t2, restore_localized_coordinates 1 2
        (CoordTree.arr [.arr [.arr [.arr [.num 3, .num 4], .arr [.num 5, .num 6]]]]) =
        Except.ok t2 ∧
      shapeOf t2 = shapeOf
        (CoordTree.arr [.arr [.arr [.arr [.num 3, .num 4], .arr [.num 5, .num 6]]]])) :=
  C7_shape_preserved 1 2 _ (by simp [wf, wfList])

/-- C10 counterexample: an input list whose first element is numeric but
which has no second element makes both functions raise IndexError instead of
returning a 2-element list, so the claim quantified over every list with a
numeric first element is false. -/
theorem C10_counterexample :
    localize_coordinates 0 0 (CoordTree.arr [.num 1]) = Except.error PyErr.indexError ∧
    restore_localized_coordinates 0 0 (CoordTree.arr [.num 1]) =
      Except.error PyErr.indexError := by
  constructor
  · simp [localize_coordinates]
  · simp [restore_localized_coordinates]

/-- C10 (amended): for every input list whose first two elements are
numeric, localize_coordinates and restore_localized_coordinates return
exactly a 2-element list built from only the first two elements of the
input; any further elements of the leaf (for example an altitude third
component) are silently dropped from the output. -/
theorem C10_leaf_truncation (xo yo x y : ℚ) (rest : List CoordTree) :
    localize_coordinates xo yo (CoordTree.arr (.num x :: .num y :: rest)) =
      Except.ok (CoordTree.arr [.num (x - xo), .num (y - yo)]) ∧
    restore_localized_coordinates xo yo (CoordTree.arr (.num x :: .num y :: rest)) =
      Except.ok (CoordTree.arr [.num (x + xo), .num (y + yo)]) := by
  constructor
  · simp [localize_coordinates]
  · simp [restore_localized_coordinates]

/-- C2 counterexample: localizing a collection holding one well-formed
polygon and then one polygon with a malformed ring fails (IndexError, the
spec's MalformedGeometry), but the well-formed feature's coordinates have
already been replaced by their localized values — the failed operation
leaves partial output, refuting "no feature of the input collection has its
coordinates changed when the operation fails". -/
theorem C2_counterexample :
    anonymize_polygons Unit 1 1 [goodPoly, badPoly] =
      ([⟨⟨"Polygon", .arr [.arr [.arr [.num 0, .num 1], .arr [.num 2, .num 3],
        .arr [.num 4, .num 5], .arr [.num 0, .num 1]]]⟩, ()⟩, badPoly],
        some PyErr.indexError) ∧
    (anonymize_polygons Unit 1 1 [goodPoly, badPoly]).1 ≠ [goodPoly, badPoly] := by
  have h : anonymize_polygons Unit 1 1 [goodPoly, badPoly] =
      ([⟨⟨"Polygon", .arr [.arr [.arr [.num 0, .num 1], .arr [.num 2, .num 3],
        .arr [.num 4, .num 5], .arr [.num 0, .num 1]]]⟩, ()⟩, badPoly],
        some PyErr.indexError) := by
    simp [anonymize_polygons, goodPoly, badPoly, localize_coordinates, localizeList]
    norm_num
  refine ⟨h, ?_⟩
  rw [h]
  simp [goodPoly]

/-- C2 (amended): when every feature before the malformed one is well-formed
and the malformed feature's coordinates make localize_coordinates raise e,
the whole anonymize_polygons call fails with e, the malformed feature and
every later feature keep their original coordinates, but every earlier
feature's coordinates have already been replaced by their localized values:
the operation fails, yet partial output remains. -/
theorem C2_fail_partial (P : Type) (xo yo : ℚ) (pre post : List (Feature P))
    (bad : Feature P) (e : PyErr)
    (hpre : ∀ f ∈ pre, wf f.geometry.coordinates = true)
    (hbad : localize_coordinates xo yo bad.geometry.coordinates = Except.error e) :
    ∃ pre2, anonymize_polygons P xo yo (pre ++ bad :: post) =
        (pre2 ++ bad :: post, some e) ∧
      List.Forall₂ (fun f f2 => f2.properties = f.properties ∧
        f2.geometry.type = f.geometry.type ∧
        localize_coordinates xo yo f.geometry.coordinates =
          Except.ok f2.geometry.coordinates) pre pre2 := by
  induction pre with
  | nil =>
    refine ⟨[], ?_, List.Forall₂.nil⟩
    simp [anonymize_polygons, hbad]
  | cons f fs ih =>
    obtain ⟨t2, h1, -, -, -⟩ := localize_wf xo yo f.geometry.coordinates (hpre f (by simp))
    obtain ⟨pre2, g1, g2⟩ := ih (fun u hu => hpre u (by simp [hu]))
    refine ⟨⟨⟨f.geometry.type, t2⟩, f.properties⟩ :: pre2, ?_, ?_⟩
    · simp [anonymize_polygons, h1, g1]
    · exact List.Forall₂.cons ⟨rfl, rfl, h1⟩ g2

/-- C2 witness: the amended statement at the concrete collection
[goodPoly, badPoly] with offset (1, 1). -/
theorem C2_witness :
    ∃ pre2, anonymize_polygons Unit 1 1 ([goodPoly] ++ badPoly :: []) =
        (pre2 ++ badPoly :: [], some PyErr.indexError) ∧
      List.Forall₂ (fun f f2 => f2.properties = f.properties ∧
        f2.geometry.type = f.geometry.type ∧
        localize_coordinates 1 1 f.geometry.coordinates =
          Except.ok f2.geometry.coordinates) [goodPoly] pre2 :=
  C2_fail_partial Unit 1 1 [goodPoly] [] badPoly PyErr.indexError
    (by intro f hf
        simp only [List.mem_singleton] at hf
        subst hf
        simp [goodPoly, wf, wfList])
    (by simp [badPoly, localize_coordinates, localizeList])

/-- Features that are neither Polygon nor MultiPolygon are skipped by the
reference-point scan. -/
theorem calculate_offset_skip (P : Type) (pre l : List (Feature P))
    (hpre : ∀ g ∈ pre, g.geometry.type ≠ "Polygon" ∧ g.geometry.type ≠ "MultiPolygon") :
    calculate_offset_coords P (pre ++ l) = calculate_offset_coords P l := by
  induction pre with
  | nil => rfl
  | cons f fs ih =>
    obtain ⟨h1, h2⟩ := hpre f (by simp)
    rw [List.cons_append, calculate_offset_coords, if_neg h1, if_neg h2]
    exact ih (fun u hu => hpre u (by simp [hu]))

/-- C4: _calculate_offset_coords scans features in collection order,
skipping every geometry type other than Polygon and MultiPolygon; the first
Polygon yields its coordinates[0][0] (first ring's first vertex), the first
MultiPolygon its coordinates[0][0][0] (first polygon's first ring's first
vertex); a collection with no Polygon/MultiPolygon feature produces the
NoEligibleFeature outcome (Python returns None, modelled as .ok none). -/
theorem C4_reference_point (P : Type) (pre post : List (Feature P)) (f : Feature P)
    (v : CoordTree) (vs rs ps : List CoordTree)
    (hpre : ∀ g ∈ pre, g.geometry.type ≠ "Polygon" ∧ g.geometry.type ≠ "MultiPolygon") :
    calculate_offset_coords P pre = Except.ok none ∧
    (f.geometry.type = "Polygon" →
      f.geometry.coordinates = CoordTree.arr (CoordTree.arr (v :: vs) :: rs) →
      calculate_offset_coords P (pre ++ f :: post) = Except.ok (some v)) ∧
    (f.geometry.type = "MultiPolygon" →
      f.geometry.coordinates =
        CoordTree.arr (CoordTree.arr (CoordTree.arr (v :: vs) :: rs) :: ps) →
      calculate_offset_coords P (pre ++ f :: post) = Except.ok (some v)) := by
  refine ⟨?_, ?_, ?_⟩
  · have h := calculate_offset_skip P pre [] hpre
    simpa [calculate_offset_coords] using h
  · intro ht hc
    rw [calculate_offset_skip P pre (f :: post) hpre]
    rw [calculate_offset_coords, if_pos ht, hc]
    simp [pyIndex0]
  · intro ht hc
    rw [calculate_offset_skip P pre (f :: post) hpre]
    have hne : f.geometry.type ≠ "Polygon" := by rw [ht]; decide
    rw [calculate_offset_coords, if_neg hne, if_pos ht, hc]
    simp [pyIndex0]

/-- C4 witness: a Point feature alone yields the None outcome, and with a
Polygon appended the scan skips the Point and returns the polygon's first
ring's first vertex. -/
theorem C4_witness :
    calculate_offset_coords Unit [⟨⟨"Point", .arr [.num 9, .num 9]⟩, ()⟩] =
      Except.ok none ∧
    calculate_offset_coords Unit ([⟨⟨"Point", .arr [.num 9, .num 9]⟩, ()⟩] ++
        (⟨⟨"Polygon", .arr [.arr [.arr [.num 1, .num 2]]]⟩, ()⟩ : Feature Unit) :: []) =
      Except.ok (some (CoordTree.arr [.num 1, .num 2])) :=
  have h := C4_reference_point Unit [⟨⟨"Point", .arr [.num 9, .num 9]⟩, ()⟩] []
    ⟨⟨"Polygon", .arr [.arr [.arr [.num 1, .num 2]]]⟩, ()⟩
    (CoordTree.arr [.num 1, .num 2]) [] [] []
    (by intro g hg
        simp only [List.mem_singleton] at hg
        subst hg
        exact ⟨by decide, by decide⟩)
  ⟨h.1, h.2.1 rfl rfl⟩

/-- Longitudes all in [-180, 180) give a sum in [-180·n, 180·n). -/
theorem sum_lon_bounds (l : List ℚ) (h : ∀ x ∈ l, -180 ≤ x ∧ x < 180) (hne : l ≠ []) :
    -180 * (l.length : ℚ) ≤ l.sum ∧ l.sum < 180 * (l.length : ℚ) := by
  induction l with
  | nil => exact absurd rfl hne
  | cons a l ih =>
    obtain ⟨ha1, ha2⟩ := h a (by simp)
    cases l with
    | nil =>
      simp only [List.sum_cons, List.sum_nil, List.length_cons, List.length_nil]
      push_cast
      constructor <;> linarith
    | cons b m =>
      obtain ⟨ih1, ih2⟩ := ih (fun x hx => h x (by simp [hx])) (by simp)
      simp only [List.sum_cons, List.length_cons] at *
      push_cast at *
      constructor <;> linarith

/-- C3 counterexample: one eligible polygon whose centroid longitude is
exactly 180 (finite and inside [-180, 180]) gives zone 61 from the code —
there is no clamping to [1, 60] — while the claim's clamped formula gives
60; and a longitude far outside [-180, 180] yields the zone number 197
instead of any InvalidZone failure, since the code performs no validation
at all. -/
theorem C3_counterexample :
    zoneNumber [180] = 61 ∧ specSelectZone [180] = 60 ∧ zoneNumber [999] = 197 := by
  refine ⟨?_, ?_, ?_⟩
  · norm_num [zoneNumber, pyInt]
  · norm_num [specSelectZone]
  · norm_num [zoneNumber, pyInt]

/-- C3 (amended): for every non-empty set of centroid longitudes in
[-180, 180), the zone equals floor((avgLongitude + 180) / 6) + 1 and already
lies in [1, 60], so the clamp claimed by the spec would be a no-op there and
the code indeed agrees with the clamped formula; the code performs no
clamping and no NaN/range validation, and at longitude 180 it returns the
out-of-range zone 61 (see the counterexample). -/
theorem C3_zone_formula (lons : List ℚ) (hne : lons ≠ [])
    (h : ∀ x ∈ lons, -180 ≤ x ∧ x < 180) :
    zoneNumber lons = ⌊(lons.sum / (lons.length : ℚ) + 180) / 6⌋ + 1 ∧
    1 ≤ zoneNumber lons ∧ zoneNumber lons ≤ 60 ∧
    zoneNumber lons = specSelectZone lons := by
  have hlen : 0 < (lons.length : ℚ) := by
    have h0 : 0 < lons.length := List.length_pos.mpr hne
    exact_mod_cast h0
  obtain ⟨hs1, hs2⟩ := sum_lon_bounds lons h hne
  have h1 : -180 ≤ lons.sum / (lons.length : ℚ) := by
    rw [le_div_iff₀ hlen]
    linarith
  have h2 : lons.sum / (lons.length : ℚ) < 180 := by
    rw [div_lt_iff₀ hlen]
    linarith
  have hq0 : 0 ≤ (lons.sum / (lons.length : ℚ) + 180) / 6 := by
    apply div_nonneg (by linarith) (by norm_num)
  have hq60 : (lons.sum / (lons.length : ℚ) + 180) / 6 < 60 := by
    rw [div_lt_iff₀ (by norm_num : (0:ℚ) < 6)]
    linarith
  have hz : zoneNumber lons = ⌊(lons.sum / (lons.length : ℚ) + 180) / 6⌋ + 1 := by
    rw [zoneNumber, pyInt, if_neg (not_lt.mpr hq0)]
  have hfl0 : 0 ≤ ⌊(lons.sum / (lons.length : ℚ) + 180) / 6⌋ := Int.floor_nonneg.mpr hq0
  have hfl59 : ⌊(lons.sum / (lons.length : ℚ) + 180) / 6⌋ < 60 :=
    Int.floor_lt.mpr (by push_cast; linarith)
  refine ⟨hz, ?_, ?_, ?_⟩
  · rw [hz]; omega
  · rw [hz]; omega
  · rw [hz, specSelectZone]; omega

/-- C3 witness: the amended formula at the single centroid longitude 10
(zone 32). -/
theorem C3_witness :
    zoneNumber [10] = ⌊(List.sum [(10:ℚ)] / ((List.length [(10:ℚ)] : ℕ) : ℚ) + 180) / 6⌋ + 1 ∧
    1 ≤ zoneNumber [10] ∧ zoneNumber [10] ≤ 60 ∧
    zoneNumber [10] = specSelectZone [10] :=
  C3_zone_formula [10] (by simp) (by
    intro x hx
    simp only [List.mem_singleton] at hx
    subst hx
    norm_num)

/-- C6: when the filtered set of Polygon-type features is empty, zone
selection (_get_transformation_to_UTM), the forward projection
(project_to_UTM) and the whole pipeline (project) all fail with ValueError
(the spec's NoPolygonFeatures) and produce no output. -/
theorem C6_empty_filter_fails (P : Type) (cent : Geometry → ℚ)
    (utmOfZone : ℤ → Point → Point) (toShape : Geometry → PlanarGeometry)
    (rotateDeg : ℤ) (c s k : ℚ) (fs : List (Feature P))
    (h : getSourcePolygons P fs = []) :
    get_transformation_to_UTM P cent utmOfZone fs = Except.error PyErr.valueError ∧
    project_to_UTM P cent utmOfZone toShape fs = Except.error PyErr.valueError ∧
    project P cent utmOfZone toShape rotateDeg c s k fs =
      Except.error PyErr.valueError := by
  have hb : (getSourcePolygons P fs).isEmpty = true := by rw [h]; rfl
  refine ⟨?_, ?_, ?_⟩
  · simp [get_transformation_to_UTM, hb]
  · simp [project_to_UTM, hb]
  · simp [project, project_to_UTM, hb]

/-- C6 witness: a collection holding only a MultiPolygon feature. -/
theorem C6_witness :
    get_transformation_to_UTM Unit (fun _ => 0) (fun _ p => p)
      [⟨⟨"MultiPolygon", .arr [.num 1, .num 2]⟩, ()⟩] = Except.error PyErr.valueError ∧
    project_to_UTM Unit (fun _ => 0) (fun _ p => p) (fun _ => ⟨[], []⟩)
      [⟨⟨"MultiPolygon", .arr [.num 1, .num 2]⟩, ()⟩] = Except.error PyErr.valueError ∧
    project Unit (fun _ => 0) (fun _ p => p) (fun _ => ⟨[], []⟩) 3 0 1 2
      [⟨⟨"MultiPolygon", .arr [.num 1, .num 2]⟩, ()⟩] = Except.error PyErr.valueError :=
  C6_empty_filter_fails Unit (fun _ => 0) (fun _ p => p) (fun _ => ⟨[], []⟩) 3 0 1 2
    [⟨⟨"MultiPolygon", .arr [.num 1, .num 2]⟩, ()⟩] (by simp [getSourcePolygons])

/-- C8: the zone number computed by _get_transformation_to_UTM is a pure
function of its input (repeated calls agree) and is invariant under any
permutation of the feature order, because the sum and count of the centroid
longitudes are order-independent; cent abstracts the external per-polygon
shapely centroid longitude. -/
theorem C8_zone_order_independent (P : Type) (cent : Geometry → ℚ)
    (fs fs2 : List (Feature P)) (hperm : fs.Perm fs2) :
    selectedZone P cent fs = selectedZone P cent fs ∧
    selectedZone P cent fs = selectedZone P cent fs2 := by
  refine ⟨rfl, ?_⟩
  have hp : (getSourcePolygons P fs).Perm (getSourcePolygons P fs2) := hperm.filter _
  have hp2 := hp.map (fun f => cent f.geometry)
  simp only [selectedZone, zoneNumber]
  rw [hp2.sum_eq, hp2.length_eq]

/-- C8 witness: swapping the order of two concrete features leaves the zone
number unchanged. -/
theorem C8_witness :
    selectedZone Unit (fun _ => 7) [goodPoly, badPoly] =
      selectedZone Unit (fun _ => 7) [goodPoly, badPoly] ∧
    selectedZone Unit (fun _ => 7) [goodPoly, badPoly] =
      selectedZone Unit (fun _ => 7) [badPoly, goodPoly] :=
  C8_zone_order_independent Unit (fun _ => 7) [goodPoly, badPoly] [badPoly, goodPoly]
    (List.Perm.swap badPoly goodPoly [])

/-- The single per-polygon loop of transform_to_localized_coordinate_system
computes exactly the spec's staged pipeline recenter → rotate → scale on the
same input. -/
theorem transform_stages (P : Type) (rotateDeg : ℤ) (c s k : ℚ)
    (polys : List (PlanarFeature P)) :
    transform_to_localized_coordinate_system P rotateDeg c s k polys =
      specScaleStage P k (specRotateStage P rotateDeg c s (specRecenterStage P polys)) := by
  by_cases hr : rotateDeg ≠ 0 <;> by_cases hk : k ≠ 1 <;>
    simp [transform_to_localized_coordinate_system, specScaleStage, specRotateStage,
      specRecenterStage, hr, hk, List.map_map, Function.comp]

/-- C5: with a non-empty filtered polygon set, project applies its stages in
the fixed order forward geodetic-to-planar transform, then recentering by
the negated global vertex mean, then rotation (only when the configured
angle is nonzero, about the origin, by the standard counterclockwise
rotation matrix modelled in rotatePoint), then uniform scaling (only when
the configured factor is not 1.0, about the origin). -/
theorem C5_stage_order (P : Type) (cent : Geometry → ℚ) (utmOfZone : ℤ → Point → Point)
    (toShape : Geometry → PlanarGeometry) (rotateDeg : ℤ) (c s k : ℚ)
    (fs : List (Feature P)) (hne : getSourcePolygons P fs ≠ []) :
    project P cent utmOfZone toShape rotateDeg c s k fs =
      Except.ok (specScaleStage P k (specRotateStage P rotateDeg c s
        (specRecenterStage P (specForwardStage P (utmOfZone (selectedZone P cent fs))
          ((getSourcePolygons P fs).map
            (fun f => ⟨toShape f.geometry, f.properties⟩)))))) := by
  have hb : (getSourcePolygons P fs).isEmpty = false := by
    cases hgs : getSourcePolygons P fs with
    | nil => exact absurd hgs hne
    | cons a l => rfl
  rw [project, project_to_UTM, get_transformation_to_UTM]
  simp only [hb, Bool.false_eq_true, if_false]
  rw [transform_stages]
  simp [specForwardStage, List.map_map, Function.comp_def]

/-- C5 witness: the staged decomposition at a concrete one-polygon
collection with rotation angle 90 (cosine 0, sine 1) and scale factor 2. -/
theorem C5_witness :
    project Unit (fun _ => 0) (fun _ p => p) (fun _ => ⟨[(1, 2)], []⟩) 90 0 1 2
      [goodPoly] =
      Except.ok (specScaleStage Unit 2 (specRotateStage Unit 90 0 1
        (specRecenterStage Unit (specForwardStage Unit
          ((fun (_ : ℤ) (p : Point) => p) (selectedZone Unit (fun _ => 0) [goodPoly]))
          ((getSourcePolygons Unit [goodPoly]).map
            (fun f => ⟨(fun (_ : Geometry) => (⟨[(1, 2)], []⟩ : PlanarGeometry)) f.geometry,
              f.properties⟩)))))) :=
  C5_stage_order Unit (fun _ => 0) (fun _ p => p) (fun _ => ⟨[(1, 2)], []⟩) 90 0 1 2
    [goodPoly] (by simp [getSourcePolygons, goodPoly])

/-- C9: no geometry transform touches the properties of any feature:
anonymize_polygons and restore_polygons keep every feature's properties even
when they fail partway, and in the projector both project_to_UTM, the
localized-coordinate-system transform and the whole pipeline hand each
source feature's properties through unchanged, in order. -/
theorem C9_properties_untouched (P : Type) (cent : Geometry → ℚ)
    (utmOfZone : ℤ → Point → Point) (toShape : Geometry → PlanarGeometry)
    (rotateDeg : ℤ) (c s k : ℚ) (xo yo : ℚ) (fs : List (Feature P)) :
    (anonymize_polygons P xo yo fs).1.map (fun f => f.properties) =
      fs.map (fun f => f.properties) ∧
    (restore_polygons P xo yo fs).1.map (fun f => f.properties) =
      fs.map (fun f => f.properties) ∧
    (∀ us, project_to_UTM P cent utmOfZone toShape fs = Except.ok us →
      us.map (fun u => u.properties) =
        (getSourcePolygons P fs).map (fun f => f.properties)) ∧
    (∀ polys : List (PlanarFeature P),
      (transform_to_localized_coordinate_system P rotateDeg c s k polys).map
        (fun u => u.properties) = polys.map (fun u => u.properties)) ∧
    (∀ out, project P cent utmOfZone toShape rotateDeg c s k fs = Except.ok out →
      out.map (fun u => u.properties) =
        (getSourcePolygons P fs).map (fun f => f.properties)) := by
  have hloc : ∀ gs : List (Feature P),
      (anonymize_polygons P xo yo gs).1.map (fun f => f.properties) =
        gs.map (fun f => f.properties) := by
    intro gs
    induction gs with
    | nil => rfl
    | cons f fs ih =>
      cases hl : localize_coordinates xo yo f.geometry.coordinates with
      | error e => simp [anonymize_polygons, hl]
      | ok c2 => simp [anonymize_polygons, hl, ih]
  have hres : ∀ gs : List (Feature P),
      (restore_polygons P xo yo gs).1.map (fun f => f.properties) =
        gs.map (fun f => f.properties) := by
    intro gs
    induction gs with
    | nil => rfl
    | cons f fs ih =>
      cases hl : restore_localized_coordinates xo yo f.geometry.coordinates with
      | error e => simp [restore_polygons, hl]
      | ok c2 => simp [restore_polygons, hl, ih]
  have hutm : ∀ us, project_to_UTM P cent utmOfZone toShape fs = Except.ok us →
      us.map (fun u => u.properties) =
        (getSourcePolygons P fs).map (fun f => f.properties) := by
    intro us hus
    rw [project_to_UTM, get_transformation_to_UTM] at hus
    cases hb : (getSourcePolygons P fs).isEmpty with
    | true => simp [hb] at hus
    | false =>
      simp only [hb, Bool.false_eq_true, if_false] at hus
      injection hus with hus2
      subst hus2
      simp [List.map_map, Function.comp_def]
  have htrans : ∀ polys : List (PlanarFeature P),
      (transform_to_localized_coordinate_system P rotateDeg c s k polys).map
        (fun u => u.properties) = polys.map (fun u => u.properties) := by
    intro polys
    simp [transform_to_localized_coordinate_system, List.map_map, Function.comp]
  refine ⟨hloc fs, hres fs, hutm, htrans, ?_⟩
  intro out hout
  rw [project] at hout
  cases hu : project_to_UTM P cent utmOfZone toShape fs with
  | error e => rw [hu] at hout; cases hout
  | ok u =>
    rw [hu] at hout
    cases hout
    rw [htrans u, hutm u hu]

/-- C9 witness: the frame condition at a concrete collection and concrete
projector parameters, with the transform conjunct applied to a concrete
planar polygon. -/
theorem C9_witness :
    (anonymize_polygons Unit 1 1 [goodPoly, badPoly]).1.map (fun f => f.properties) =
      [goodPoly, badPoly].map (fun f => f.properties) ∧
    (restore_polygons Unit 1 1 [goodPoly, badPoly]).1.map (fun f => f.properties) =
      [goodPoly, badPoly].map (fun f => f.properties) ∧
    (transform_to_localized_coordinate_system Unit 90 0 1 2
        [(⟨⟨[(1, 2)], []⟩, ()⟩ : PlanarFeature Unit)]).map (fun u => u.properties) =
      [(⟨⟨[(1, 2)], []⟩, ()⟩ : PlanarFeature Unit)].map (fun u => u.properties) :=
  have h := C9_properties_untouched Unit (fun _ => 0) (fun _ p => p)
    (fun _ => ⟨[(1, 2)], []⟩) 90 0 1 2 1 1 [goodPoly, badPoly]
  ⟨h.1, h.2.1, h.2.2.2.1 [⟨⟨[(1, 2)], []⟩, ()⟩]⟩

end GeoJSONTools
